import Mathlib

/-
Verification development for the rule-engine repository
(backend/rule_engine: tokenizer, recursive-descent parser, AST evaluation,
JSON codec, rule combination, and the create_rule API handler).

The repository ships `backend/rule_engine/main.py` (codec, combine_rules,
create_rule handler), `backend/main.py` and the two test modules.  The
modules `rule_engine.parser_utils` (tokenize, Parser) and
`rule_engine.ast_utils` (Node, AST, Condition, ANDOperator, OROperator) are
imported by that code but their source is not part of the repository
snapshot; every definition over them below is modelled from the
specification and carries a doc comment starting with "Modelled from the
spec:".  Everything else is a direct embedding of the Python source.
-/

namespace RuleEngine

/-- Decidable equality for Except results, so that concrete runs of the
embedded functions can be checked by decide. -/
instance exceptDecEq {ε α : Type} [DecidableEq ε] [DecidableEq α] :
    DecidableEq (Except ε α) := fun x y =>
  match x, y with
  | .ok a, .ok b =>
    if h : a = b then .isTrue (by rw [h]) else
      .isFalse (by intro hh; injection hh; exact h ‹_›)
  | .error a, .error b =>
    if h : a = b then .isTrue (by rw [h]) else
      .isFalse (by intro hh; injection hh; exact h ‹_›)
  | .ok _, .error _ => .isFalse (by intro hh; exact Except.noConfusion hh)
  | .error _, .ok _ => .isFalse (by intro hh; exact Except.noConfusion hh)

/-- Comparison tags of a condition, as in the spec data model
(gt, lt, eq and the optional gte, lte, neq). -/
inductive CompType where
  | gt
  | lt
  | eq
  | gte
  | lte
  | neq
deriving DecidableEq

/-- Scalar values of the rule language: numbers (modelled as integers,
which covers every literal appearing in the repository) and strings. -/
inductive Scalar where
  | num (n : Int)
  | str (s : String)
deriving DecidableEq

/-- Condition of an operand node: attribute name, compared value and
comparison tag.  Field names follow the persisted contract
(lvariable, rvalue, comparison_type). -/
structure Condition where
  lvariable : String
  rvalue : Scalar
  comparison_type : CompType
deriving DecidableEq

/-- Operator tag of an internal node: AND or OR.  The Python classes
ANDOperator and OROperator are stateless, so a tag is all the state. -/
inductive Op where
  | AND
  | OR
deriving DecidableEq

/-- Well-formed AST node, the discriminated union of the spec data model:
operand leaves carry a Condition, operator nodes carry two children and an
operator tag.  The Python Node class is a record with a node_type string;
every Node the repository constructs has exactly one of these two shapes. -/
inductive Node where
  | operand (value : Condition)
  | operator (left right : Node) (op : Op)
deriving DecidableEq

/-- Record a rule is evaluated against: a mapping from attribute names to
scalar values, modelled as an association list (Python dict). -/
abbrev Record := List (String × Scalar)

/- ## Tokenizer (spec section 4.1) -/

/-- ASCII single-quote character, the literal delimiter of the rule
grammar. -/
def quoteChar : Char := Char.ofNat 39

/-- ASCII whitespace test used by the tokenizer scan. -/
def isWsChar (c : Char) : Bool :=
  c == ' ' || c == Char.ofNat 9 || c == Char.ofNat 10 || c == Char.ofNat 13

/-- Characters that may continue an unquoted token run: anything that is
not whitespace and not a parenthesis. -/
def isRunChar (c : Char) : Bool :=
  !isWsChar c && c != '(' && c != ')'

/-- Modelled from the spec: the scan of `tokenize` from the missing
`parser_utils` module.  Left to right, skipping ASCII whitespace; each
parenthesis is its own token; a single-quote-delimited run becomes one
token with the quotes stripped; otherwise a maximal run of non-whitespace,
non-parenthesis characters is one token. -/
def tokenizeChars : Nat → List Char → List (List Char)
  | 0, _ => []
  | _, [] => []
  | fuel + 1, c :: rest =>
    if isWsChar c then tokenizeChars fuel rest
    else if c == '(' || c == ')' then [c] :: tokenizeChars fuel rest
    else if c == quoteChar then
      (rest.takeWhile (fun d => d != quoteChar)) ::
        tokenizeChars fuel (rest.drop ((rest.takeWhile (fun d => d != quoteChar)).length + 1))
    else
      (c :: rest.takeWhile isRunChar) ::
        tokenizeChars fuel (rest.drop (rest.takeWhile isRunChar).length)

/-- Modelled from the spec: `tokenize(ruleText) -> sequence<Token>` of the
missing `parser_utils` module.  The fuel argument of the scan only bounds
recursion; every step consumes at least one character, so one unit of fuel
per character is enough for the scan to finish the input. -/
def tokenize (s : String) : List String :=
  (tokenizeChars (s.data.length + 1) s.data).map String.mk

/- ## Literals and comparators (spec section 4.2) -/

/-- ASCII digit test. -/
def isDigitChar (c : Char) : Bool :=
  48 ≤ c.toNat && c.toNat ≤ 57

/-- Numeric value of a digit run. -/
def digitsToNat (l : List Char) : Nat :=
  l.foldl (fun acc c => acc * 10 + (c.toNat - 48)) 0

/-- Modelled from the spec: a LITERAL token that parses as a number (a
nonempty run of ASCII digits, covering every numeric literal in the
repository) becomes a numeric rvalue, any other literal stays a string. -/
def litToScalar (s : String) : Scalar :=
  if !s.data.isEmpty && s.data.all isDigitChar then
    .num (Int.ofNat (digitsToNat s.data))
  else
    .str s

/-- Modelled from the spec: the comparator token to comparison tag map. -/
def compOf : String → Option CompType
  | ">" => some .gt
  | "<" => some .lt
  | "=" => some .eq
  | ">=" => some .gte
  | "<=" => some .lte
  | "!=" => some .neq
  | _ => none

/- ## Parser (spec section 4.2) -/

/-- Failure kind of the parser: the SyntaxError-kind condition of the
spec, carrying a message. -/
inductive ParseErr where
  | badRule (msg : String)
deriving DecidableEq

mutual

/-- Modelled from the spec: grammar production
expr := and_expr ("OR" and_expr)*, left-associative.  The Nat argument is
recursion fuel; `parse` supplies enough for any token sequence. -/
def parseExpr : Nat → List String → Except ParseErr (Node × List String)
  | 0, _ => .error (.badRule "fuel exhausted")
  | fuel + 1, ts => do
    let (l, ts1) ← parseAnd fuel ts
    parseExprLoop fuel l ts1

/-- Modelled from the spec: the ("OR" and_expr)* fold, chaining the
previously built subtree as left child. -/
def parseExprLoop : Nat → Node → List String → Except ParseErr (Node × List String)
  | 0, _, _ => .error (.badRule "fuel exhausted")
  | fuel + 1, acc, ts =>
    match ts with
    | "OR" :: rest => do
      let (r, ts1) ← parseAnd fuel rest
      parseExprLoop fuel (.operator acc r .OR) ts1
    | _ => .ok (acc, ts)

/-- Modelled from the spec: grammar production
and_expr := primary ("AND" primary)*, left-associative. -/
def parseAnd : Nat → List String → Except ParseErr (Node × List String)
  | 0, _ => .error (.badRule "fuel exhausted")
  | fuel + 1, ts => do
    let (l, ts1) ← parsePrimary fuel ts
    parseAndLoop fuel l ts1

/-- Modelled from the spec: the ("AND" primary)* fold, chaining the
previously built subtree as left child. -/
def parseAndLoop : Nat → Node → List String → Except ParseErr (Node × List String)
  | 0, _, _ => .error (.badRule "fuel exhausted")
  | fuel + 1, acc, ts =>
    match ts with
    | "AND" :: rest => do
      let (r, ts1) ← parsePrimary fuel rest
      parseAndLoop fuel (.operator acc r .AND) ts1
    | _ => .ok (acc, ts)

/-- Modelled from the spec: grammar production
primary := "(" expr ")" | comparison, with
comparison := IDENT COMPARATOR LITERAL; missing or unexpected tokens are a
SyntaxError-kind failure. -/
def parsePrimary : Nat → List String → Except ParseErr (Node × List String)
  | 0, _ => .error (.badRule "fuel exhausted")
  | fuel + 1, ts =>
    match ts with
    | "(" :: rest => do
      let (e, ts1) ← parseExpr fuel rest
      match ts1 with
      | ")" :: ts2 => .ok (e, ts2)
      | _ => .error (.badRule "expected closing parenthesis")
    | a :: c :: b :: rest =>
      match compOf c with
      | some ct => .ok (.operand ⟨a, litToScalar b, ct⟩, rest)
      | none => .error (.badRule "expected comparator")
    | _ => .error (.badRule "expected comparison")

end

/-- Modelled from the spec: `Parser(tokens).parse() -> Node`, consuming the
full token sequence; leftover tokens are a SyntaxError-kind failure.  The
fuel is generous: every grammar step consumes at least one token. -/
def parse (ts : List String) : Except ParseErr Node :=
  match parseExpr (ts.length * 4 + 8) ts with
  | .ok (n, []) => .ok n
  | .ok (_, _ :: _) => .error (.badRule "unconsumed tokens")
  | .error e => .error e

/-- Modelled from the spec: `parseRule(text) -> Node`, the tokenizer
followed by the parser (AST.create_rule of the missing ast_utils). -/
def parseRule (s : String) : Except ParseErr Node :=
  parse (tokenize s)

/- ## Evaluation (spec section 4.3) -/

/-- Failure kinds of evaluation: the MissingFieldError-kind condition
(record lacks a referenced attribute) and the TypeMismatchError-kind
condition (comparison between incompatible scalar kinds). -/
inductive EvalErr where
  | missingField (k : String)
  | typeMismatch
deriving DecidableEq

/-- Lookup of an attribute in a record (Python dict access). -/
def lookupRec : Record → String → Option Scalar
  | [], _ => none
  | (k, v) :: rest, key => if k == key then some v else lookupRec rest key

/-- Integer comparison dispatch on the comparison tag. -/
def compInt (ct : CompType) (a b : Int) : Bool :=
  match ct with
  | .gt => b < a
  | .lt => a < b
  | .eq => a == b
  | .gte => b ≤ a
  | .lte => a ≤ b
  | .neq => a != b

/-- String comparison dispatch on the comparison tag, using lexicographic
order. -/
def compStr (ct : CompType) (a b : String) : Bool :=
  match ct with
  | .gt => b < a
  | .lt => a < b
  | .eq => a == b
  | .gte => ¬ a < b
  | .lte => ¬ b < a
  | .neq => a != b

/-- Modelled from the spec: Condition.evaluate against a fetched record
value.  Numeric compare when both sides are numeric, string compare when
both are strings; a cross-kind comparison is an explicit
TypeMismatchError-kind failure (no implicit coercion). -/
def evalCondition (c : Condition) (v : Scalar) : Except EvalErr Bool :=
  match v, c.rvalue with
  | .num a, .num b => .ok (compInt c.comparison_type a b)
  | .str a, .str b => .ok (compStr c.comparison_type a b)
  | _, _ => .error .typeMismatch

/-- Modelled from the spec: `evaluate(node, record) -> bool` (Node.evaluate
and AST.evaluate_rule of the missing ast_utils).  An operand fetches
record[lvariable], failing with MissingFieldError when absent; an operator
evaluates left then right and combines with AND or OR. -/
def evaluate : Node → Record → Except EvalErr Bool
  | .operand c, rec =>
    match lookupRec rec c.lvariable with
    | none => .error (.missingField c.lvariable)
    | some v => evalCondition c v
  | .operator l r o, rec =>
    match evaluate l rec with
    | .error e => .error e
    | .ok a =>
      match evaluate r rec with
      | .error e => .error e
      | .ok b => .ok (match o with | .AND => a && b | .OR => a || b)

/-- Every operand attribute referenced by the tree is present in the
record. -/
def refsPresent : Node → Record → Bool
  | .operand c, rec => (lookupRec rec c.lvariable).isSome
  | .operator l r _, rec => refsPresent l rec && refsPresent r rec

/-- Two scalars have the same kind (both numeric or both strings). -/
def scalarKindMatch : Scalar → Scalar → Bool
  | .num _, .num _ => true
  | .str _, .str _ => true
  | _, _ => false

/-- Every operand whose attribute is present in the record compares
scalars of matching kinds. -/
def typesOk : Node → Record → Bool
  | .operand c, rec =>
    match lookupRec rec c.lvariable with
    | none => true
    | some v => scalarKindMatch v c.rvalue
  | .operator l r _, rec => typesOk l rec && typesOk r rec

/- ## JSON documents (the Document shape of spec section 4.4) -/

mutual

/-- JSON-compatible value, the generic structured document of the codec:
null, string, number or object.  These are the shapes json.dumps of
main.py produces and json.loads hands to dict_to_node. -/
inductive JValue where
  | null
  | str (s : String)
  | num (n : Int)
  | obj (fields : JFields)

/-- Ordered field list of a JSON object (a Python dict with unique
keys). -/
inductive JFields where
  | nil
  | cons (key : String) (val : JValue) (rest : JFields)

end

/-- Dictionary lookup, Python dict.get semantics (keys are unique in any
dict produced by json.loads, so first match is the match). -/
def JFields.get? : JFields → String → Option JValue
  | .nil, _ => none
  | .cons k v fs, key => if k == key then some v else JFields.get? fs key

/-- Failure kinds of untyped Python subscripting inside dict_to_node:
KeyError for a missing dict key, TypeError for subscripting a
non-dictionary value with a string key. -/
inductive PyErr where
  | keyError (k : String)
  | typeError
deriving DecidableEq

/-- Python subscript semantics for the expression value[key] as used in
dict_to_node: a dict yields the entry or raises KeyError; a string, number
or None raises TypeError. -/
def pygetitem (j : JValue) (k : String) : Except PyErr JValue :=
  match j with
  | .obj fs =>
    match fs.get? k with
    | some v => .ok v
    | none => .error (.keyError k)
  | _ => .error .typeError

/-- Python equality of a JSON value against a string literal, as in the
comparisons of dict_to_node. -/
def isStrVal (j : JValue) (s : String) : Bool :=
  match j with
  | .str t => t == s
  | _ => false

/- ## Encoding (root_to_json of main.py, lines 121-133) -/

/-- String form of a comparison tag, the comparison_type attribute the
Condition class stores and json.dumps serializes. -/
def compTypeStr : CompType → String
  | .gt => "gt"
  | .lt => "lt"
  | .eq => "eq"
  | .gte => "gte"
  | .lte => "lte"
  | .neq => "neq"

/-- JSON form of a scalar. -/
def scalarToJson : Scalar → JValue
  | .num n => .num n
  | .str s => .str s

/-- JSON form of a Condition instance under json.dumps with
default=lambda o: o.__dict__, instance attributes lvariable, rvalue and
comparison_type. -/
def condToJson (c : Condition) : JValue :=
  .obj (.cons "lvariable" (.str c.lvariable)
    (.cons "rvalue" (scalarToJson c.rvalue)
      (.cons "comparison_type" (.str (compTypeStr c.comparison_type)) .nil)))

/-- JSON form of a Node instance under json.dumps of main.py with
default=lambda o: o.__dict__: attributes node_type, left, right, value.
An operand serializes its Condition; an operator serializes its operator
object, whose __dict__ is the empty object because ANDOperator and
OROperator are stateless (spec section 3: a pure dispatch tag). -/
def nodeToJson : Node → JValue
  | .operand c =>
    .obj (.cons "node_type" (.str "operand")
      (.cons "left" .null
        (.cons "right" .null
          (.cons "value" (condToJson c) .nil))))
  | .operator l r _ =>
    .obj (.cons "node_type" (.str "operator")
      (.cons "left" (nodeToJson l)
        (.cons "right" (nodeToJson r)
          (.cons "value" (.obj .nil) .nil))))

/-- Embedding of root_to_json (main.py lines 121-133) at the document
level: a None root yields the empty string, modelled as none; otherwise
the function returns the json.dumps text of this document. -/
def root_to_json_doc : Option Node → Option JValue
  | none => none
  | some n => some (nodeToJson n)

/- ## Decoding (dict_to_node of main.py, lines 149-176) -/

/-- Value slot of a decoded Python Node object: absent (None), a Condition
built from three looked-up document values, or an operator tag. -/
inductive PyVal where
  | vnone
  | cond (lv rv ct : JValue)
  | opv (o : Op)

/-- Python Node object as dict_to_node materializes it: the raw node_type
value, optional children and a value slot.  Unlike the well-formed Node
union this can represent the malformed shapes dict_to_node produces, such
as an operator node whose value stayed None. -/
inductive PyNode where
  | mk (node_type : JValue) (left right : Option PyNode) (value : PyVal)

/-- Value slot of a decoded node. -/
def PyNode.value : PyNode → PyVal
  | .mk _ _ _ v => v

/-- Embedding of dict_to_node (main.py lines 149-176).  None decodes to an
absent node.  A dictionary is decoded by: fetching data with key node_type
(KeyError when absent), decoding data.get of left and then of right (an
absent key behaves like None), and then branching on node_type: for
"operand" the value entry is fetched (KeyError when absent) and subscripted
with lvariable, rvalue and comparison_type (TypeError when it is not a
dictionary, KeyError when a key is absent); for any other node_type the
value entry is fetched and compared against the strings "ANDOperator" and
"OROperator", leaving the value slot None when neither matches.  A
non-dictionary, non-None document raises TypeError at the node_type
subscript. -/
def dictToNodeF : Nat → JValue → Except PyErr (Option PyNode)
  | 0, _ => .error .typeError
  | fuel + 1, j =>
    match j with
    | .null => .ok none
    | .str _ => .error .typeError
    | .num _ => .error .typeError
    | .obj fs => do
      let nt ← pygetitem (.obj fs) "node_type"
      let l ← match fs.get? "left" with
        | none => pure none
        | some lv => dictToNodeF fuel lv
      let r ← match fs.get? "right" with
        | none => pure none
        | some rv => dictToNodeF fuel rv
      if isStrVal nt "operand" then do
        let v ← pygetitem (.obj fs) "value"
        let lv ← pygetitem v "lvariable"
        let rv ← pygetitem v "rvalue"
        let ct ← pygetitem v "comparison_type"
        pure (some (.mk nt l r (.cond lv rv ct)))
      else do
        let v ← pygetitem (.obj fs) "value"
        if isStrVal v "ANDOperator" then
          pure (some (.mk nt l r (.opv .AND)))
        else if isStrVal v "OROperator" then
          pure (some (.mk nt l r (.opv .OR)))
        else
          pure (some (.mk nt l r .vnone))

mutual

/-- Structural size of a document, bounding the decoder recursion
depth. -/
def JValue.size : JValue → Nat
  | .null => 1
  | .str _ => 1
  | .num _ => 1
  | .obj fs => fs.size + 1

/-- Structural size of a field list. -/
def JFields.size : JFields → Nat
  | .nil => 1
  | .cons _ v rest => v.size + rest.size + 1

end

/-- Entry point of the decoder with fuel covering the whole document: the
recursion only descends into values stored inside the document, whose
size strictly shrinks, so size many units of fuel are never exhausted. -/
def dict_to_node (j : JValue) : Except PyErr (Option PyNode) :=
  dictToNodeF (j.size + 1) j

/-- Canonical view of a well-formed Node as the Python object dict_to_node
would have to rebuild for the codec to be inverse: same node_type tag,
same children, a Condition with the same three attributes for an operand
and the operator tag for an operator. -/
def nodeToPy : Node → PyNode
  | .operand c =>
    .mk (.str "operand") none none
      (.cond (.str c.lvariable) (scalarToJson c.rvalue) (.str (compTypeStr c.comparison_type)))
  | .operator l r o =>
    .mk (.str "operator") (some (nodeToPy l)) (some (nodeToPy r)) (.opv o)

/- ## combine_rules (main.py, lines 76-100) -/

/-- Loop body of combine_rules: the running combined_root starts as None,
the first parsed rule replaces it, every further parsed rule is attached
as the right child of a fresh AND operator node whose left child is the
tree so far.  A parse failure propagates (the handler has no try block). -/
def combineAux : Option Node → List String → Except ParseErr (Option Node)
  | acc, [] => .ok acc
  | acc, rule :: rest =>
    match parse (tokenize rule) with
    | .error e => .error e
    | .ok root =>
      match acc with
      | none => combineAux (some root) rest
      | some t => combineAux (some (.operator t root .AND)) rest

/-- Embedding of combine_rules (main.py lines 76-100): fold the parsed
rules left to right under AND, starting from an absent tree. -/
def combine_rules (rules : List String) : Except ParseErr (Option Node) :=
  combineAux none rules

/-- Parsing of a list of rules, each independently, collecting the parse
trees; the reference point for the combine_rules fold law. -/
def parseAll : List String → Except ParseErr (List Node)
  | [] => .ok []
  | r :: rs =>
    match parseRule r with
    | .error e => .error e
    | .ok t =>
      match parseAll rs with
      | .error e => .error e
      | .ok ts => .ok (t :: ts)

/- ## create_rule (main.py, lines 53-73) -/

/-- Rule store of the persistence collaborator, a keyed list of encoded
documents.  Modelled from the spec: database.create_rule appends the named
document (put(name, Document) of spec section 6). -/
def db_create_rule (db : List (String × Option JValue)) (name : String)
    (doc : Option JValue) : List (String × Option JValue) :=
  db ++ [(name, doc)]

/-- Response of the create_rule handler: the encoded document on success,
or an HTTP error with a status code and detail text. -/
inductive ApiResp where
  | okDoc (d : Option JValue)
  | httpError (status : Nat) (detail : String)

/-- Embedding of the create_rule handler (main.py lines 53-73): tokenize,
parse inside the try block, encode, persist, return the document; any
parse failure is re-raised as an HTTP 400 error with the failure text as
detail, before anything touches the store.  Tokenizing is outside the try
block but has no failure mode; encoding and the store put are total. -/
def create_rule (rule name : String) (db : List (String × Option JValue)) :
    List (String × Option JValue) × ApiResp :=
  match parse (tokenize rule) with
  | .error (.badRule msg) => (db, .httpError 400 msg)
  | .ok root =>
    (db_create_rule db name (root_to_json_doc (some root)),
     .okDoc (root_to_json_doc (some root)))

/- ## Concrete fixtures used by the claims -/

/-- Single-quote as a one-character string, for building rule texts with
quoted literals. -/
def squot : String := String.singleton quoteChar

/-- Tokenizer fixture rule of the test suite (test_parser.test_tokenizer):
the nested AND of two OR-joined groups. -/
def rule_c6 : String :=
  "((age > 30 AND department = " ++ squot ++ "Sales" ++ squot ++
  ") OR (age < 25 AND department = " ++ squot ++ "Marketing" ++ squot ++
  ")) AND (salary > 50000 OR experience > 5)"

/-- Scenario rule of test_parser.test_ast_create_rule: same groups joined
by OR at the top level. -/
def rule_c3 : String :=
  "((age > 30 AND department = " ++ squot ++ "Sales" ++ squot ++
  ") OR (age < 25 AND department = " ++ squot ++ "Marketing" ++ squot ++
  ")) OR (salary > 50000 OR experience > 5)"

/-- Record of the first scenario assertion of
test_parser.test_ast_create_rule. -/
def data_c3 : Record :=
  [("age", .num 35), ("department", .str "Sales"),
   ("salary", .num 60000), ("experience", .num 3)]

/-- Condition age > 30 of the operator tests. -/
def cond_age : Condition := ⟨"age", .num 30, .gt⟩

/-- Condition salary > 50000 of the operator tests. -/
def cond_salary : Condition := ⟨"salary", .num 50000, .gt⟩

/-- AND node of test_tree_traversal.test_and_operator. -/
def and_node : Node := .operator (.operand cond_age) (.operand cond_salary) .AND

/-- OR node of test_tree_traversal.test_or_operator. -/
def or_node : Node := .operator (.operand cond_age) (.operand cond_salary) .OR

/-- Two-condition AND rule used for the codec round trip. -/
def rule_c1 : String := "age > 30 AND salary > 50000"

/-- Parse tree of rule_c1 under the spec grammar. -/
def tree_c1 : Node := .operator (.operand cond_age) (.operand cond_salary) .AND

/-- Document whose node_type says operator while its value holds a
condition document: the populated field disagrees with the tag. -/
def doc_mismatch : JValue :=
  .obj (.cons "node_type" (.str "operator")
    (.cons "value" (condToJson cond_age) .nil))

/-- Document whose node_type says operand while its value holds an
operator tag string. -/
def doc_operand_optag : JValue :=
  .obj (.cons "node_type" (.str "operand")
    (.cons "value" (.str "ANDOperator") .nil))

/-- Document missing the required node_type field. -/
def doc_missing_node_type : JValue :=
  .obj (.cons "left" .null .nil)

/-- Operand document missing the required value field. -/
def doc_missing_value : JValue :=
  .obj (.cons "node_type" (.str "operand") .nil)

/-- AND-fold step of combine_rules: attach the next parsed tree as the
right child under a fresh AND node. -/
def andFold (a b : Node) : Node := .operator a b .AND

/-- Parse tree of rule_c3 under the spec grammar: the two AND groups
joined by OR, then joined by OR with the salary/experience OR group. -/
def tree_c3 : Node :=
  .operator
    (.operator
      (.operator (.operand ⟨"age", .num 30, .gt⟩)
        (.operand ⟨"department", .str "Sales", .eq⟩) .AND)
      (.operator (.operand ⟨"age", .num 25, .lt⟩)
        (.operand ⟨"department", .str "Marketing", .eq⟩) .AND)
      .OR)
    (.operator (.operand ⟨"salary", .num 50000, .gt⟩)
      (.operand ⟨"experience", .num 5, .gt⟩) .OR)
    .OR

/- ## Theorems -/

/-- Folding lemma for combine_rules: once the accumulator holds a tree,
each further successfully parsed rule is attached under a fresh AND node,
left to right. -/
theorem combineAux_fold (rs : List String) : ∀ (acc : Node) (ts : List Node),
    parseAll rs = .ok ts →
    combineAux (some acc) rs = .ok (some (ts.foldl andFold acc)) := by
  induction rs with
  | nil =>
    intro acc ts hs
    cases hs
    rfl
  | cons r rest ih =>
    intro acc ts hs
    unfold parseAll at hs
    unfold combineAux
    simp only [parseRule] at hs
    cases hr : parse (tokenize r) with
    | error e => rw [hr] at hs; cases hs
    | ok t0 =>
      rw [hr] at hs
      cases hrest : parseAll rest with
      | error e => rw [hrest] at hs; cases hs
      | ok ts0 =>
        rw [hrest] at hs
        cases hs
        simp only [List.foldl_cons]
        exact ih (.operator acc t0 .AND) ts0 hrest

/-- C1: the claim asserts the round-trip law, and the spec is right that
this is the evident intent, but the code cannot satisfy it: root_to_json
serializes the stateless operator object through its attribute dictionary,
which is the empty object, while dict_to_node can only recover an operator
tag from the string "ANDOperator" or "OROperator"; so decoding an encoded
operator node always leaves the operator tag absent.  Concretely, parsing
"age > 30 AND salary > 50000", encoding and decoding yields an operator
node whose value slot is None instead of the AND tag. -/
theorem c1_round_trip_drops_operator_tag :
    parseRule rule_c1 = .ok tree_c1 ∧
    dict_to_node (nodeToJson tree_c1) =
      .ok (some (.mk (.str "operator") (some (nodeToPy (.operand cond_age)))
        (some (nodeToPy (.operand cond_salary))) .vnone)) ∧
    nodeToPy tree_c1 =
      .mk (.str "operator") (some (nodeToPy (.operand cond_age)))
        (some (nodeToPy (.operand cond_salary))) (.opv .AND) ∧
    (PyNode.mk (.str "operator") (some (nodeToPy (.operand cond_age)))
        (some (nodeToPy (.operand cond_salary))) .vnone ≠
      PyNode.mk (.str "operator") (some (nodeToPy (.operand cond_age)))
        (some (nodeToPy (.operand cond_salary))) (.opv .AND)) := by
  refine ⟨by decide, rfl, rfl, ?_⟩
  intro h
  injection h with h1 h2 h3 h4
  exact PyVal.noConfusion h4

/-- C2 counterexample: a document whose node_type disagrees with its
populated value field (node_type "operator" over a condition document)
does not fail at all: dict_to_node decodes it successfully, leaving the
value slot None.  The claim that decoding fails with a typed
MalformedDocumentError-kind condition is false. -/
theorem c2_counterexample :
    dict_to_node doc_mismatch =
      .ok (some (.mk (.str "operator") none none .vnone)) := rfl

/-- C2 amended: decoding performs no node_type/value consistency
validation.  A document whose node_type is "operand" but whose value is an
operator tag string fails with an untyped TypeError (string subscripting);
a document missing node_type, or an operand document missing value, fails
with an untyped KeyError; an operator document with an unrecognized value
decodes successfully with an absent operator tag. -/
theorem c2_decode_unvalidated :
    dict_to_node doc_operand_optag = .error .typeError ∧
    dict_to_node doc_missing_node_type = .error (.keyError "node_type") ∧
    dict_to_node doc_missing_value = .error (.keyError "value") ∧
    dict_to_node (.obj (.cons "node_type" (.str "operator")
        (.cons "value" (.str "XOperator") .nil))) =
      .ok (some (.mk (.str "operator") none none .vnone)) :=
  ⟨rfl, rfl, rfl, rfl⟩

/-- C3 counterexample: under the grammar and evaluation semantics of the
spec, parsing the scenario rule and evaluating it against the record
{age 35, department Sales, salary 60000, experience 3} does not return
false (the top level is an OR whose both sides hold). -/
theorem c3_counterexample :
    parseRule rule_c3 = .ok tree_c3 ∧ evaluate tree_c3 data_c3 ≠ .ok false :=
  ⟨by decide, by decide⟩

/-- C3 amended: parsing the scenario rule and evaluating it against the
record {age 35, department Sales, salary 60000, experience 3} returns
true under the specified grammar and evaluation semantics; the false the
repository test expects is inconsistent with them, as the spec itself
flags in its open question. -/
theorem c3_scenario_evaluates_true :
    parseRule rule_c3 = .ok tree_c3 ∧ evaluate tree_c3 data_c3 = .ok true :=
  ⟨by decide, by decide⟩

/-- C4: for a nonempty sequence of rule strings that all parse,
combine_rules parses each rule independently and folds the parse trees
pairwise left to right, each step attaching the previously combined tree
as left child and the next parsed rule as right child under an AND
operator node. -/
theorem c4_combine_left_fold (r : String) (rs : List String) (t : Node) (ts : List Node)
    (h : parseRule r = .ok t) (hs : parseAll rs = .ok ts) :
    combine_rules (r :: rs) = .ok (some (ts.foldl andFold t)) := by
  unfold combine_rules combineAux
  simp only [parseRule] at h
  rw [h]
  exact combineAux_fold rs t ts hs

/-- C4 witness: two concrete rules combine into a single AND node whose
left child is the first parse and right child the second. -/
theorem c4_witness :
    parseRule "age > 30" = .ok (.operand cond_age) ∧
    parseAll ["salary > 50000"] = .ok [.operand cond_salary] ∧
    combine_rules ["age > 30", "salary > 50000"] =
      .ok (some (([Node.operand cond_salary]).foldl andFold (.operand cond_age))) :=
  ⟨by decide, by decide,
   c4_combine_left_fold "age > 30" ["salary > 50000"] _ _ (by decide) (by decide)⟩

/-- C5: the AND and OR truth tables of the operator nodes over the
conditions age > 30 and salary > 50000 hold exactly on the three records
of the test suite. -/
theorem c5_truth_tables :
    evaluate and_node [("age", .num 35), ("salary", .num 60000)] = .ok true ∧
    evaluate or_node [("age", .num 35), ("salary", .num 60000)] = .ok true ∧
    evaluate and_node [("age", .num 35), ("salary", .num 40000)] = .ok false ∧
    evaluate or_node [("age", .num 35), ("salary", .num 40000)] = .ok true ∧
    evaluate and_node [("age", .num 25), ("salary", .num 40000)] = .ok false ∧
    evaluate or_node [("age", .num 25), ("salary", .num 40000)] = .ok false :=
  ⟨rfl, rfl, rfl, rfl, rfl, rfl⟩

/-- C6: tokenizing the fixture rule yields exactly the expected ordered
token sequence, with the quotes stripped from the quoted literals. -/
theorem c6_tokenizer :
    tokenize rule_c6 =
      ["(", "(", "age", ">", "30", "AND", "department", "=", "Sales", ")",
       "OR", "(", "age", "<", "25", "AND", "department", "=", "Marketing",
       ")", ")", "AND", "(", "salary", ">", "50000", "OR", "experience",
       ">", "5", ")"] := by decide

/-- C7: combining an empty sequence of rules yields an absent tree, and
encoding the absent tree yields the empty document (the empty string of
root_to_json) rather than a document with null fields. -/
theorem c7_empty_combine_empty_doc :
    combine_rules [] = .ok none ∧ root_to_json_doc none = none :=
  ⟨rfl, rfl⟩

/-- C8 counterexample: a record containing every referenced attribute does
not guarantee a boolean result: evaluating the condition age > 30 against
a record where age holds a string fails with a TypeMismatchError-kind
condition. -/
theorem c8_counterexample :
    refsPresent (.operand cond_age) [("age", .str "Sales")] = true ∧
    evaluate (.operand cond_age) [("age", .str "Sales")] = .error .typeMismatch :=
  ⟨rfl, rfl⟩

/-- C8 amended: for every AST node and record in which every attribute
that is present has a scalar kind matching the rvalue of its condition:
if some operand attribute is absent, evaluation fails with a
MissingFieldError-kind condition, and if every referenced attribute is
present, evaluation returns a boolean.  Without the kind-match restriction
the claim fails, because a present attribute of the wrong kind fails with
a TypeMismatchError-kind condition instead. -/
theorem c8_missing_field_or_total (n : Node) (rec : Record)
    (hty : typesOk n rec = true) :
    (refsPresent n rec = false → ∃ k, evaluate n rec = .error (.missingField k)) ∧
    (refsPresent n rec = true → ∃ b, evaluate n rec = .ok b) := by
  induction n with
  | operand c =>
    cases hl : lookupRec rec c.lvariable with
    | none =>
      refine ⟨fun _ => ⟨c.lvariable, ?_⟩, fun href => ?_⟩
      · simp [evaluate, hl]
      · simp [refsPresent, hl] at href
    | some v =>
      refine ⟨fun href => ?_, fun _ => ?_⟩
      · simp [refsPresent, hl] at href
      · simp only [typesOk, hl] at hty
        cases v with
        | num a =>
          cases hr : c.rvalue with
          | num b =>
            exact ⟨compInt c.comparison_type a b,
              by simp [evaluate, hl, evalCondition, hr]⟩
          | str s => rw [hr] at hty; simp [scalarKindMatch] at hty
        | str s =>
          cases hr : c.rvalue with
          | num b => rw [hr] at hty; simp [scalarKindMatch] at hty
          | str s2 =>
            exact ⟨compStr c.comparison_type s s2,
              by simp [evaluate, hl, evalCondition, hr]⟩
  | operator l r o ihl ihr =>
    simp only [typesOk, Bool.and_eq_true] at hty
    obtain ⟨ihl1, ihl2⟩ := ihl hty.1
    obtain ⟨ihr1, ihr2⟩ := ihr hty.2
    constructor
    · intro href
      cases hfl : refsPresent l rec with
      | false =>
        obtain ⟨k, hk⟩ := ihl1 hfl
        exact ⟨k, by simp [evaluate, hk]⟩
      | true =>
        simp only [refsPresent, hfl, Bool.true_and] at href
        obtain ⟨b1, hb1⟩ := ihl2 hfl
        obtain ⟨k, hk⟩ := ihr1 href
        exact ⟨k, by simp [evaluate, hb1, hk]⟩
    · intro href
      simp only [refsPresent, Bool.and_eq_true] at href
      obtain ⟨b1, hb1⟩ := ihl2 href.1
      obtain ⟨b2, hb2⟩ := ihr2 href.2
      cases o with
      | AND => exact ⟨b1 && b2, by simp [evaluate, hb1, hb2]⟩
      | OR => exact ⟨b1 || b2, by simp [evaluate, hb1, hb2]⟩

/-- C8 witness: a type-consistent record missing the referenced attribute
makes evaluation fail with the MissingFieldError-kind condition. -/
theorem c8_witness :
    typesOk (.operand cond_age) [("x", Scalar.num 1)] = true ∧
    refsPresent (.operand cond_age) [("x", Scalar.num 1)] = false ∧
    (∃ k, evaluate (.operand cond_age) [("x", Scalar.num 1)] =
      .error (.missingField k)) :=
  ⟨by decide, by decide,
   (c8_missing_field_or_total (.operand cond_age) [("x", Scalar.num 1)]
     (by decide)).1 (by decide)⟩

/-- C9: a rule text that fails to parse makes create_rule answer with a
bad-request-style error of status 400 and leaves the rule store unchanged;
nothing is persisted unless parsing (and then total encoding) succeeds. -/
theorem c9_parse_failure_400 (rule name : String)
    (db : List (String × Option JValue)) (e : ParseErr)
    (h : parse (tokenize rule) = .error e) :
    (create_rule rule name db).1 = db ∧
    ∃ msg, (create_rule rule name db).2 = .httpError 400 msg := by
  cases e with
  | badRule msg =>
    unfold create_rule
    rw [h]
    exact ⟨rfl, msg, rfl⟩

/-- C9 witness: the malformed rule text "age >" fails to parse and
create_rule on it returns status 400 leaving an empty store empty. -/
theorem c9_witness :
    parse (tokenize "age >") = .error (.badRule "expected comparison") ∧
    (create_rule "age >" "r1" []).1 = [] ∧
    (∃ msg, (create_rule "age >" "r1" []).2 = .httpError 400 msg) :=
  ⟨by decide,
   (c9_parse_failure_400 "age >" "r1" [] (.badRule "expected comparison")
     (by decide)).1,
   (c9_parse_failure_400 "age >" "r1" [] (.badRule "expected comparison")
     (by decide)).2⟩

/-- C10: combining a single-element sequence returns exactly the tree the
one rule parses to, with no enclosing operator node added. -/
theorem c10_combine_singleton (r : String) (t : Node)
    (h : parseRule r = .ok t) :
    combine_rules [r] = .ok (some t) := by
  unfold combine_rules combineAux
  simp only [parseRule] at h
  rw [h]
  rfl

/-- C10 witness: combining the singleton list of "age > 30" yields exactly
its parse tree. -/
theorem c10_witness :
    parseRule "age > 30" = .ok (.operand cond_age) ∧
    combine_rules ["age > 30"] = .ok (some (.operand cond_age)) :=
  ⟨by decide, c10_combine_singleton "age > 30" _ (by decide)⟩

end RuleEngine
